import Mathlib

/-!
Verification of the remote-desktop streaming relay and its client session
manager, shallowly embedded from the TypeScript sources:

* `src/src/utils/vnc-websocket-server.ts` — the relay (`VNCWebSocketServer`):
  per-connection session map, message dispatch, mock screen-update producer.
* `src/src/components/VNCViewer.tsx` — the `useVNCWebSocket` hook: socket
  lifecycle, reconnect backoff, input forwarding.
* `src/src/utils/vnc-client.ts` — the `VNCClient` class: state flags, input
  forwarding guards, and the `on`/`off`/`emit` event system.

Stateful handlers become pure functions from an explicit connection / hook
state (plus an environment record holding the nondeterministic inputs:
backend outcome, `Math.random` draws, `Date.now`) to the successor state and
the list of messages written to the socket.  `try`/`catch` around the
session-backend call becomes an `Except` parameter.
-/

/-! ### Shared protocol types (src/src/types/index.ts) -/

/-- `VNCConfig` from `types/index.ts`: host, port, optional password,
width, height, depth. -/
structure VNCConfig where
  host : String
  port : Nat
  password : Option String
  width : Nat
  height : Nat
  depth : Nat
  deriving DecidableEq

/-- `VNCMouseEvent` from `types/index.ts`. -/
structure VNCMouseEvent where
  x : Int
  y : Int
  button : Nat
  pressed : Bool
  deriving DecidableEq

/-- `VNCKeyboardEvent` from `types/index.ts`. -/
structure VNCKeyboardEvent where
  key : String
  pressed : Bool
  deriving DecidableEq

namespace VNCWebSocketServer

/-! ### Relay server model (src/src/utils/vnc-websocket-server.ts) -/

/-- The `data` field of a `vnc_screen_update`: the mock producer sends a
byte buffer (`Uint8Array`), while `handleVNCRequestScreen` sends the string
`'mock_screen_data'`. -/
inductive ScreenData where
  | bytes (b : List Nat)
  | str (s : String)
  deriving DecidableEq

/-- Number of bytes a `ScreenData` payload decodes to. -/
def ScreenData.size : ScreenData → Nat
  | .bytes b => b.length
  | .str s => s.length

/-- The object sent as the `data` of the periodic `vnc_screen_update`
(`startScreenUpdates`): origin, extent, payload, timestamp. -/
structure ScreenUpdate where
  x : Nat
  y : Nat
  width : Nat
  height : Nat
  data : ScreenData
  timestamp : Nat
  deriving DecidableEq

/-- The object sent by `handleVNCRequestScreen` (it has no x/y fields). -/
structure RequestScreenData where
  width : Nat
  height : Nat
  timestamp : Nat
  data : ScreenData
  deriving DecidableEq

/-- Messages the relay writes to a client socket, one constructor per
`type` string it sends. -/
inductive WireMsg where
  | connectedAck (timestamp : Nat)
  | vncConnected (config : VNCConfig) (sessionId : String)
  | vncError (error : String)
  | vncScreenUpdate (u : ScreenUpdate)
  | vncRequestScreenReply (d : RequestScreenData)
  | errorMsg (error : String)
  deriving DecidableEq

/-- The mock backend client built inline in `handleVNCConnect`:
`isConnected` flag and the session id returned by its `connect()`. -/
structure BackendClient where
  isConnected : Bool
  sessionId : String
  deriving DecidableEq

/-- Relay-side state for one client socket: whether `ws.readyState` is
`OPEN` (checked by `sendMessage`), the `vncClients.get(ws)` entry, and
whether `startScreenUpdates` has registered its interval. -/
structure ServerConn where
  readyStateOpen : Bool
  vncClient : Option BackendClient
  screenUpdatesStarted : Bool
  deriving DecidableEq

/-- Nondeterministic inputs consumed while handling one message: the
outcome of the backend `connect()` call (`.error` models a thrown
exception, caught by the handler), the two `Math.random` draws of the mock
update, and `Date.now()`. -/
structure ServerEnv where
  backend : Except String String
  rx : Nat
  ry : Nat
  now : Nat

/-- A parsed client envelope, one constructor per `case` of the
`handleMessage` switch; `unknown t` is an envelope whose `type` string `t`
matches none of the known cases. -/
inductive ClientMsg where
  | vnc_connect (config : VNCConfig)
  | vnc_mouse_event (event : VNCMouseEvent)
  | vnc_keyboard_event (event : VNCKeyboardEvent)
  | vnc_request_screen
  | unknown (t : String)
  deriving DecidableEq

/-- Input events the relay forwards to the backend client
(`vncClient.sendMouseEvent` / `vncClient.sendKeyboardEvent`). -/
inductive ForwardedEvent where
  | mouse (e : VNCMouseEvent)
  | key (e : VNCKeyboardEvent)
  deriving DecidableEq

/-- Result of handling one message: successor connection state, messages
written to the socket, events forwarded to the backend. -/
structure HandleResult where
  conn : ServerConn
  sent : List WireMsg
  forwarded : List ForwardedEvent
  deriving DecidableEq

/-- `sendMessage`: writes the message only when the socket is `OPEN`. -/
def sendMessage (conn : ServerConn) (msg : WireMsg) : List WireMsg :=
  if conn.readyStateOpen then [msg] else []

/-- `sendError`: wraps the text in an `error` envelope. -/
def sendError (conn : ServerConn) (error : String) : List WireMsg :=
  sendMessage conn (.errorMsg error)

/-- The mock update built by `sendScreenUpdate` inside
`startScreenUpdates`: random origin below 500, fixed 100×100 extent, and a
fresh `Uint8Array(30000)` payload (the source comments it as mock RGB
data). -/
def mockScreenUpdate (rx ry now : Nat) : ScreenUpdate :=
  { x := rx % 500
    y := ry % 500
    width := 100
    height := 100
    data := .bytes (List.replicate 30000 0)
    timestamp := now }

/-- One firing of `sendScreenUpdate` (the initial call and every interval
tick): sends the mock update when the connection still has a client entry
and that client reports connected. -/
def screenUpdateTick (conn : ServerConn) (client : BackendClient)
    (rx ry now : Nat) : List WireMsg :=
  if conn.vncClient.isSome && client.isConnected then
    sendMessage conn (.vncScreenUpdate (mockScreenUpdate rx ry now))
  else []

/-- `handleVNCConnect`: builds the inline mock backend client, awaits its
`connect()` (modelled by `env.backend`), stores it in the client map, sends
`vnc_connected`, and starts screen updates (whose first tick fires
immediately).  A backend exception is caught and answered with
`vnc_error{'VNC connection failed'}`. -/
def handleVNCConnect (conn : ServerConn) (config : VNCConfig)
    (env : ServerEnv) : HandleResult :=
  match env.backend with
  | .ok sessionId =>
    let vncClient : BackendClient := { isConnected := true, sessionId := sessionId }
    let conn1 : ServerConn :=
      { conn with vncClient := some vncClient, screenUpdatesStarted := true }
    let sent1 := sendMessage conn1 (.vncConnected config sessionId)
    let sent2 := screenUpdateTick conn1 vncClient env.rx env.ry env.now
    { conn := conn1, sent := sent1 ++ sent2, forwarded := [] }
  | .error _ =>
    { conn := conn
      sent := sendMessage conn (.vncError "VNC connection failed")
      forwarded := [] }

/-- `handleVNCMouseEvent`: with no client-map entry, replies
`error{'Not connected to VNC'}`; otherwise forwards the event. -/
def handleVNCMouseEvent (conn : ServerConn) (event : VNCMouseEvent) :
    HandleResult :=
  match conn.vncClient with
  | none =>
    { conn := conn, sent := sendError conn "Not connected to VNC", forwarded := [] }
  | some _ =>
    { conn := conn, sent := [], forwarded := [.mouse event] }

/-- `handleVNCKeyboardEvent`: same guard as the mouse handler. -/
def handleVNCKeyboardEvent (conn : ServerConn) (event : VNCKeyboardEvent) :
    HandleResult :=
  match conn.vncClient with
  | none =>
    { conn := conn, sent := sendError conn "Not connected to VNC", forwarded := [] }
  | some _ =>
    { conn := conn, sent := [], forwarded := [.key event] }

/-- `handleVNCRequestScreen`: with no client-map entry, the same
`'Not connected to VNC'` error; otherwise one `vnc_screen_update` whose
data is the fixed 1024×768 record with the string payload. -/
def handleVNCRequestScreen (conn : ServerConn) (env : ServerEnv) :
    HandleResult :=
  match conn.vncClient with
  | none =>
    { conn := conn, sent := sendError conn "Not connected to VNC", forwarded := [] }
  | some _ =>
    { conn := conn
      sent := sendMessage conn (.vncRequestScreenReply
        { width := 1024, height := 768, timestamp := env.now
          data := .str "mock_screen_data" })
      forwarded := [] }

/-- `handleMessage`: the dispatch switch on `message.type`. -/
def handleMessage (conn : ServerConn) (msg : ClientMsg) (env : ServerEnv) :
    HandleResult :=
  match msg with
  | .vnc_connect config => handleVNCConnect conn config env
  | .vnc_mouse_event event => handleVNCMouseEvent conn event
  | .vnc_keyboard_event event => handleVNCKeyboardEvent conn event
  | .vnc_request_screen => handleVNCRequestScreen conn env
  | .unknown t =>
    { conn := conn
      sent := sendError conn ("Unknown message type: " ++ t)
      forwarded := [] }

/-- The `type` strings handled by named cases of the dispatch switch. -/
def knownMessageTypes : List String :=
  ["vnc_connect", "vnc_mouse_event", "vnc_keyboard_event", "vnc_request_screen"]

/-- Whether a wire message is a reply to a connect request
(`vnc_connected` or `vnc_error`). -/
def isConnectReply : WireMsg → Bool
  | .vncConnected _ _ => true
  | .vncError _ => true
  | _ => false

end VNCWebSocketServer

namespace useVNCWebSocket

/-! ### Client hook model (src/src/components/VNCViewer.tsx, useVNCWebSocket) -/

/-- Browser `WebSocket.readyState` values. -/
inductive ReadyState where
  | CONNECTING
  | OPEN
  | CLOSING
  | CLOSED
  deriving DecidableEq

/-- The hook's mutable state: `ws.current` (with its readyState),
the `isConnected` / `isStreaming` / `connectionError` React state, the
`reconnectTimeout.current` handle (carrying the delay it was armed with),
and `reconnectAttempts.current`.  `openedSockets` counts the
`new WebSocket(wsUrl)` constructions, to observe whether a call opened a
socket. -/
structure HookState where
  ws : Option ReadyState
  isConnected : Bool
  isStreaming : Bool
  connectionError : Option String
  reconnectTimeout : Option Nat
  reconnectAttempts : Nat
  openedSockets : Nat
  deriving DecidableEq

/-- `maxReconnectAttempts` in the hook. -/
def maxReconnectAttempts : Nat := 5

/-- `connect()`: returns at once when `ws.current?.readyState ===
WebSocket.OPEN`; otherwise constructs a new `WebSocket` (readyState
`CONNECTING`) and installs its handlers.  All other updates happen in
those asynchronous handlers. -/
def connect (s : HookState) : HookState :=
  if s.ws = some .OPEN then s
  else { s with ws := some .CONNECTING, openedSockets := s.openedSockets + 1 }

/-- `disconnect()`: clears any pending reconnect timer, zeroes the attempt
counter, closes and nulls the socket, and resets the React state. -/
def disconnect (s : HookState) : HookState :=
  { s with
    reconnectTimeout := none
    reconnectAttempts := 0
    ws := none
    isConnected := false
    isStreaming := false
    connectionError := none }

/-- The socket's `onclose` handler.  It clears the connection flags, then —
with no check for a manual close — schedules a reconnect after
`2000 * reconnectAttempts` ms when the counter is below the maximum, and
otherwise sets the terminal error.  The second component is the delay of
the timer this closure armed (`none` when it armed no timer). -/
def onclose (s : HookState) : HookState × Option Nat :=
  let s1 := { s with isConnected := false, isStreaming := false }
  if s1.reconnectAttempts < maxReconnectAttempts then
    let a := s1.reconnectAttempts + 1
    ({ s1 with reconnectAttempts := a, reconnectTimeout := some (2000 * a) },
      some (2000 * a))
  else
    ({ s1 with connectionError := some "Max reconnection attempts reached" }, none)

/-- Messages the hook writes to its socket. -/
inductive HookOutMsg where
  | vnc_connect (config : VNCConfig)
  | vnc_mouse_event (event : VNCMouseEvent)
  | vnc_keyboard_event (event : VNCKeyboardEvent)
  | vnc_request_screen
  deriving DecidableEq

/-- The socket's `onopen` handler: marks connected, clears the error,
resets the attempt counter, and sends `vnc_connect` with the hook's
config. -/
def onopen (config : VNCConfig) (s : HookState) : HookState × List HookOutMsg :=
  ({ s with ws := some .OPEN, isConnected := true, connectionError := none,
            reconnectAttempts := 0 },
    [.vnc_connect config])

/-- The hook's `sendMouseEvent`: sends iff the socket is `OPEN` and
`isConnected` holds; it never touches the state. -/
def sendMouseEvent (s : HookState) (event : VNCMouseEvent) : List HookOutMsg :=
  if s.ws = some .OPEN && s.isConnected then [.vnc_mouse_event event] else []

/-- The hook's `sendKeyboardEvent`: same guard as `sendMouseEvent`. -/
def sendKeyboardEvent (s : HookState) (event : VNCKeyboardEvent) :
    List HookOutMsg :=
  if s.ws = some .OPEN && s.isConnected then [.vnc_keyboard_event event] else []

/-- Iterated unplanned closures: applies `onclose` `n` times, returning the
final state and, in order, the timer delay each closure armed. -/
def closuresTrace : HookState → Nat → HookState × List (Option Nat)
  | s, 0 => (s, [])
  | s, n + 1 =>
    let r := onclose s
    let t := closuresTrace r.1 n
    (t.1, r.2 :: t.2)

/-- Modelled from the spec: the §4.3 `ClientConnectionState` classification
of a hook state (`Streaming` when streaming, `Awaiting Session` when
connected but not yet streaming, `Connecting` while the socket is opening,
`Error` when an error is recorded, else `Disconnected`).  Used only to
compare the spec's state language with the hook's flags. -/
inductive ClientConnectionState where
  | Disconnected
  | Connecting
  | AwaitingSession
  | Streaming
  | Error
  deriving DecidableEq

/-- Modelled from the spec: map the hook's flags to the §4.3 state names. -/
def specClientState (s : HookState) : ClientConnectionState :=
  if s.isStreaming then .Streaming
  else if s.isConnected then .AwaitingSession
  else if s.ws = some .CONNECTING then .Connecting
  else if s.connectionError.isSome then .Error
  else .Disconnected

end useVNCWebSocket

namespace VNCClient

/-! ### VNCClient class model (src/src/utils/vnc-client.ts) -/

/-- `VNCState` from `types/index.ts` as used by the class. -/
structure VNCState where
  isConnected : Bool
  isStreaming : Bool
  isAuthenticated : Bool
  error : Option String
  deriving DecidableEq

/-- The `VNCClient` instance fields the input-forwarding methods read:
its config, state flags, and `this.socket` (with its readyState). -/
structure Client where
  config : VNCConfig
  state : VNCState
  socket : Option useVNCWebSocket.ReadyState
  deriving DecidableEq

/-- Messages the class writes to its socket (note the class uses the bare
`mouse_event` / `keyboard_event` type strings). -/
inductive ClientOutMsg where
  | mouse_event (e : VNCMouseEvent)
  | keyboard_event (e : VNCKeyboardEvent)
  deriving DecidableEq

/-- `VNCClient.sendMouseEvent`: sends iff `state.isStreaming` and the
socket is non-null; otherwise the event is dropped.  No field changes
either way. -/
def sendMouseEvent (c : Client) (event : VNCMouseEvent) :
    Client × List ClientOutMsg :=
  if c.state.isStreaming && c.socket.isSome then
    (c, [.mouse_event event])
  else (c, [])

/-- `VNCClient.sendKeyboardEvent`: same guard as `sendMouseEvent`. -/
def sendKeyboardEvent (c : Client) (event : VNCKeyboardEvent) :
    Client × List ClientOutMsg :=
  if c.state.isStreaming && c.socket.isSome then
    (c, [.keyboard_event event])
  else (c, [])

/-! ### The class's event system (`on` / `emit`) -/

/-- A registered handler: may throw (the `Except.error` case). -/
def Handler (α ε β : Type) : Type := α → Except ε β

/-- One guarded call inside `emit`'s `forEach`: the `try { handler(data) }
catch` block.  Returns the caught exception, if any. -/
def tryCall {α ε β : Type} (h : Handler α ε β) (data : α) : Option ε :=
  match h data with
  | .ok _ => none
  | .error e => some e

/-- The `forEach` loop of `emit`: calls every handler in list order, each
inside its own `try`/`catch`. -/
def emitList {α ε β : Type} : List (Handler α ε β) → α → List (Option ε)
  | [], _ => []
  | h :: hs, data => tryCall h data :: emitList hs data

/-- The `eventHandlers` map, `Map<string, Function[]>`, as an association
list in insertion order. -/
def EventMap (α ε β : Type) : Type := List (String × List (Handler α ε β))

/-- `eventHandlers.get(event)`. -/
def getHandlers {α ε β : Type} : EventMap α ε β → String → Option (List (Handler α ε β))
  | [], _ => none
  | (e, hs) :: rest, event => if e = event then some hs else getHandlers rest event

/-- `on(event, handler)` (named `onEvent` here since `on` is an infix token
in Mathlib): creates the entry when absent, then pushes the handler at the
end of the array. -/
def onEvent {α ε β : Type} : EventMap α ε β → String → Handler α ε β → EventMap α ε β
  | [], event, h => [(event, [h])]
  | (e, hs) :: rest, event, h =>
    if e = event then (e, hs ++ [h]) :: rest
    else (e, hs) :: onEvent rest event h

/-- `emit(event, data)`: looks the handler array up and runs the guarded
`forEach`; with no entry it does nothing.  Total — every handler exception
is caught inside, so `emit` itself never propagates one. -/
def emit {α ε β : Type} (m : EventMap α ε β) (event : String) (data : α) :
    List (Option ε) :=
  match getHandlers m event with
  | none => []
  | some hs => emitList hs data

end VNCClient

/-! ## Claims about the relay server -/

/-- C1: for every `vnc_connect` message whose config is valid (host
non-empty, port in [1,65535], width and height ≥ 100) handled on an open
socket, the relay sends exactly one reply that is `vnc_connected` or
`vnc_error` — never both, never neither — whatever the backend does. -/
theorem C1_vnc_connect_exactly_one_reply
    (conn : VNCWebSocketServer.ServerConn) (config : VNCConfig)
    (env : VNCWebSocketServer.ServerEnv)
    (hopen : conn.readyStateOpen = true)
    (hhost : config.host ≠ "")
    (hport1 : 1 ≤ config.port) (hport2 : config.port ≤ 65535)
    (hw : 100 ≤ config.width) (hh : 100 ≤ config.height) :
    ((VNCWebSocketServer.handleMessage conn (.vnc_connect config) env).sent.filter
        VNCWebSocketServer.isConnectReply).length = 1 := by
  cases hb : env.backend <;>
    simp [VNCWebSocketServer.handleMessage, VNCWebSocketServer.handleVNCConnect, hb,
      VNCWebSocketServer.sendMessage, VNCWebSocketServer.screenUpdateTick,
      VNCWebSocketServer.isConnectReply, hopen]

/-- C1 witness: the property evaluated at a concrete valid config on an
open connection with a succeeding backend. -/
theorem C1_vnc_connect_exactly_one_reply_witness :
    (VNCConfig.mk "localhost" 5900 none 800 600 24).host ≠ ""
    ∧ 1 ≤ (VNCConfig.mk "localhost" 5900 none 800 600 24).port
    ∧ (VNCConfig.mk "localhost" 5900 none 800 600 24).port ≤ 65535
    ∧ ((VNCWebSocketServer.handleMessage ⟨true, none, false⟩
          (.vnc_connect (VNCConfig.mk "localhost" 5900 none 800 600 24))
          ⟨.ok "vnc-session-1", 7, 9, 0⟩).sent.filter
        VNCWebSocketServer.isConnectReply).length = 1 :=
  ⟨by decide, by decide, by decide,
    C1_vnc_connect_exactly_one_reply ⟨true, none, false⟩
      (VNCConfig.mk "localhost" 5900 none 800 600 24)
      ⟨.ok "vnc-session-1", 7, 9, 0⟩ rfl (by decide) (by decide) (by decide)
      (by decide) (by decide)⟩

/-- The payload of the mock screen update is the 30000-byte buffer. -/
theorem mockScreenUpdate_data_size (rx ry now : Nat) :
    (VNCWebSocketServer.mockScreenUpdate rx ry now).data.size = 30000 := by
  show (List.replicate 30000 (0 : Nat)).length = 30000
  rw [List.length_replicate]

/-- The mock screen update always has width 100. -/
theorem mockScreenUpdate_width (rx ry now : Nat) :
    (VNCWebSocketServer.mockScreenUpdate rx ry now).width = 100 := rfl

/-- The mock screen update always has height 100. -/
theorem mockScreenUpdate_height (rx ry now : Nat) :
    (VNCWebSocketServer.mockScreenUpdate rx ry now).height = 100 := rfl

/-- C2 counterexample: the relay's screen-update producer sends, on an open
connection with a connected client, a 100×100 rectangle whose payload is
30000 bytes — not `4 × 100 × 100 = 40000` as the claim states. -/
theorem C2_rgba_payload_counterexample :
    VNCWebSocketServer.screenUpdateTick ⟨true, some ⟨true, "s"⟩, true⟩
        ⟨true, "s"⟩ 7 9 0
      = [.vncScreenUpdate (VNCWebSocketServer.mockScreenUpdate 7 9 0)]
    ∧ (VNCWebSocketServer.mockScreenUpdate 7 9 0).width = 100
    ∧ (VNCWebSocketServer.mockScreenUpdate 7 9 0).height = 100
    ∧ (VNCWebSocketServer.mockScreenUpdate 7 9 0).data.size = 30000
    ∧ (VNCWebSocketServer.mockScreenUpdate 7 9 0).data.size ≠
        4 * (VNCWebSocketServer.mockScreenUpdate 7 9 0).width *
          (VNCWebSocketServer.mockScreenUpdate 7 9 0).height := by
  refine ⟨rfl, rfl, rfl, mockScreenUpdate_data_size 7 9 0, ?_⟩
  rw [mockScreenUpdate_data_size, mockScreenUpdate_width, mockScreenUpdate_height]
  decide

/-- C2 (amended): every rectangle the default producer sends is 100×100
with a payload of exactly `3 × width × height = 30000` bytes (the mock RGB
buffer), so a 100×100 update decodes to 30000 bytes, not 40000. -/
theorem C2_screen_update_payload_is_rgb
    (conn : VNCWebSocketServer.ServerConn)
    (client : VNCWebSocketServer.BackendClient) (rx ry now : Nat)
    (hopen : conn.readyStateOpen = true)
    (hsome : conn.vncClient.isSome = true)
    (hconn : client.isConnected = true) :
    VNCWebSocketServer.screenUpdateTick conn client rx ry now
      = [.vncScreenUpdate (VNCWebSocketServer.mockScreenUpdate rx ry now)]
    ∧ ∀ u, VNCWebSocketServer.WireMsg.vncScreenUpdate u ∈
          VNCWebSocketServer.screenUpdateTick conn client rx ry now →
        u.width = 100 ∧ u.height = 100
        ∧ u.data.size = 3 * u.width * u.height := by
  have h1 : VNCWebSocketServer.screenUpdateTick conn client rx ry now
      = [.vncScreenUpdate (VNCWebSocketServer.mockScreenUpdate rx ry now)] := by
    simp [VNCWebSocketServer.screenUpdateTick, VNCWebSocketServer.sendMessage,
      hopen, hsome, hconn]
  refine ⟨h1, ?_⟩
  intro u hu
  rw [h1] at hu
  simp at hu
  subst hu
  exact ⟨rfl, rfl, by
    rw [mockScreenUpdate_data_size, mockScreenUpdate_width, mockScreenUpdate_height]⟩

/-- C2 witness: the amended property evaluated on a concrete open
connection with a connected client. -/
theorem C2_screen_update_payload_is_rgb_witness :
    VNCWebSocketServer.screenUpdateTick ⟨true, some ⟨true, "s"⟩, true⟩
        ⟨true, "s"⟩ 7 9 0
      = [.vncScreenUpdate (VNCWebSocketServer.mockScreenUpdate 7 9 0)]
    ∧ ∀ u, VNCWebSocketServer.WireMsg.vncScreenUpdate u ∈
          VNCWebSocketServer.screenUpdateTick ⟨true, some ⟨true, "s"⟩, true⟩
            ⟨true, "s"⟩ 7 9 0 →
        u.width = 100 ∧ u.height = 100
        ∧ u.data.size = 3 * u.width * u.height :=
  C2_screen_update_payload_is_rgb ⟨true, some ⟨true, "s"⟩, true⟩ ⟨true, "s"⟩
    7 9 0 rfl rfl rfl

/-- C6 counterexample: with no active session, a `vnc_mouse_event` is
answered with the error text `'Not connected to VNC'`, not the claimed
exact text `"Not connected"`. -/
theorem C6_not_connected_text_counterexample :
    (VNCWebSocketServer.handleMessage ⟨true, none, false⟩
        (.vnc_mouse_event ⟨50, 50, 1, true⟩) ⟨.ok "s", 0, 0, 0⟩).sent
      = [.errorMsg "Not connected to VNC"]
    ∧ VNCWebSocketServer.WireMsg.errorMsg "Not connected" ∉
        (VNCWebSocketServer.handleMessage ⟨true, none, false⟩
          (.vnc_mouse_event ⟨50, 50, 1, true⟩) ⟨.ok "s", 0, 0, 0⟩).sent := by
  constructor <;> decide

/-- C6 (amended): with no active session on an open connection, a mouse or
keyboard event is answered with exactly one `error{'Not connected to VNC'}`
reply, nothing is forwarded to the backend, and the connection state is
unchanged (it stays registered and open). -/
theorem C6_no_session_input_rejected
    (conn : VNCWebSocketServer.ServerConn) (env : VNCWebSocketServer.ServerEnv)
    (e : VNCMouseEvent) (k : VNCKeyboardEvent)
    (hnone : conn.vncClient = none)
    (hopen : conn.readyStateOpen = true) :
    VNCWebSocketServer.handleMessage conn (.vnc_mouse_event e) env
      = ⟨conn, [.errorMsg "Not connected to VNC"], []⟩
    ∧ VNCWebSocketServer.handleMessage conn (.vnc_keyboard_event k) env
      = ⟨conn, [.errorMsg "Not connected to VNC"], []⟩ := by
  constructor <;>
    simp [VNCWebSocketServer.handleMessage, VNCWebSocketServer.handleVNCMouseEvent,
      VNCWebSocketServer.handleVNCKeyboardEvent, VNCWebSocketServer.sendError,
      VNCWebSocketServer.sendMessage, hnone, hopen]

/-- C6 witness: the amended property at a concrete sessionless open
connection. -/
theorem C6_no_session_input_rejected_witness :
    VNCWebSocketServer.handleMessage ⟨true, none, false⟩
        (.vnc_mouse_event ⟨50, 50, 1, true⟩) ⟨.ok "s", 0, 0, 0⟩
      = ⟨⟨true, none, false⟩, [.errorMsg "Not connected to VNC"], []⟩
    ∧ VNCWebSocketServer.handleMessage ⟨true, none, false⟩
        (.vnc_keyboard_event ⟨"a", true⟩) ⟨.ok "s", 0, 0, 0⟩
      = ⟨⟨true, none, false⟩, [.errorMsg "Not connected to VNC"], []⟩ :=
  C6_no_session_input_rejected ⟨true, none, false⟩ ⟨.ok "s", 0, 0, 0⟩
    ⟨50, 50, 1, true⟩ ⟨"a", true⟩ rfl rfl

/-- C7: an envelope whose type matches none of the known message types is
answered with exactly `error{'Unknown message type: <type>'}` on an open
connection, the connection state is unchanged, and any subsequent message
is handled exactly as if the unknown one had never arrived. -/
theorem C7_unknown_type_error_reply
    (conn : VNCWebSocketServer.ServerConn) (env : VNCWebSocketServer.ServerEnv)
    (t : String)
    (hopen : conn.readyStateOpen = true)
    (hunknown : t ∉ VNCWebSocketServer.knownMessageTypes) :
    VNCWebSocketServer.handleMessage conn (.unknown t) env
      = ⟨conn, [.errorMsg ("Unknown message type: " ++ t)], []⟩
    ∧ ∀ (m2 : VNCWebSocketServer.ClientMsg) (env2 : VNCWebSocketServer.ServerEnv),
        VNCWebSocketServer.handleMessage
            (VNCWebSocketServer.handleMessage conn (.unknown t) env).conn m2 env2
          = VNCWebSocketServer.handleMessage conn m2 env2 := by
  have h1 : VNCWebSocketServer.handleMessage conn (.unknown t) env
      = ⟨conn, [.errorMsg ("Unknown message type: " ++ t)], []⟩ := by
    simp [VNCWebSocketServer.handleMessage, VNCWebSocketServer.sendError,
      VNCWebSocketServer.sendMessage, hopen]
  exact ⟨h1, fun m2 env2 => by rw [h1]⟩

/-- C7 witness: the `{type:"bogus"}` scenario — the reply is exactly
`error{'Unknown message type: bogus'}` and the connection state is
untouched. -/
theorem C7_unknown_type_error_reply_witness :
    "bogus" ∉ VNCWebSocketServer.knownMessageTypes
    ∧ VNCWebSocketServer.handleMessage ⟨true, none, false⟩
        (.unknown "bogus") ⟨.ok "s", 0, 0, 0⟩
      = ⟨⟨true, none, false⟩, [.errorMsg "Unknown message type: bogus"], []⟩ :=
  ⟨by decide,
    by
      have h := (C7_unknown_type_error_reply ⟨true, none, false⟩
        ⟨.ok "s", 0, 0, 0⟩ "bogus" rfl (by decide)).1
      simpa using h⟩

/-- C9: the relay's `vnc_connect` handler validates nothing — on an open
connection, for every config whatsoever, a non-throwing backend open leads
it to store the session, reply `vnc_connected`, and start screen updates
(first update sent at once); and a `vnc_error` can appear only when the
backend open itself throws. -/
theorem C9_handleVNCConnect_no_validation
    (conn : VNCWebSocketServer.ServerConn) (config : VNCConfig)
    (env : VNCWebSocketServer.ServerEnv)
    (hopen : conn.readyStateOpen = true) :
    (∀ sid, env.backend = .ok sid →
      (VNCWebSocketServer.handleMessage conn (.vnc_connect config) env).conn.vncClient
          = some ⟨true, sid⟩
      ∧ (VNCWebSocketServer.handleMessage conn
            (.vnc_connect config) env).conn.screenUpdatesStarted = true
      ∧ (VNCWebSocketServer.handleMessage conn (.vnc_connect config) env).sent
          = [.vncConnected config sid,
              .vncScreenUpdate (VNCWebSocketServer.mockScreenUpdate env.rx env.ry env.now)])
    ∧ (∀ err, VNCWebSocketServer.WireMsg.vncError err ∈
          (VNCWebSocketServer.handleMessage conn (.vnc_connect config) env).sent →
        ∃ msg, env.backend = .error msg) := by
  constructor
  · intro sid hb
    simp [VNCWebSocketServer.handleMessage, VNCWebSocketServer.handleVNCConnect, hb,
      VNCWebSocketServer.sendMessage, VNCWebSocketServer.screenUpdateTick, hopen]
  · intro err hmem
    cases hb : env.backend with
    | ok sid =>
      rw [show VNCWebSocketServer.handleMessage conn (.vnc_connect config) env
          = VNCWebSocketServer.handleVNCConnect conn config env from rfl] at hmem
      simp [VNCWebSocketServer.handleVNCConnect, hb,
        VNCWebSocketServer.sendMessage, VNCWebSocketServer.screenUpdateTick,
        hopen] at hmem
    | error msg => exact ⟨msg, rfl⟩

/-- C9 witness: an invalid config (empty host, port 0, 10×10) still
succeeds against a concrete non-throwing backend. -/
theorem C9_handleVNCConnect_no_validation_witness :
    ((VNCWebSocketServer.handleMessage ⟨true, none, false⟩
        (.vnc_connect (VNCConfig.mk "" 0 none 10 10 8))
        ⟨.ok "sid0", 7, 9, 0⟩).conn.vncClient = some ⟨true, "sid0"⟩
    ∧ (VNCWebSocketServer.handleMessage ⟨true, none, false⟩
        (.vnc_connect (VNCConfig.mk "" 0 none 10 10 8))
        ⟨.ok "sid0", 7, 9, 0⟩).conn.screenUpdatesStarted = true
    ∧ (VNCWebSocketServer.handleMessage ⟨true, none, false⟩
        (.vnc_connect (VNCConfig.mk "" 0 none 10 10 8))
        ⟨.ok "sid0", 7, 9, 0⟩).sent
      = [.vncConnected (VNCConfig.mk "" 0 none 10 10 8) "sid0",
          .vncScreenUpdate (VNCWebSocketServer.mockScreenUpdate 7 9 0)]) :=
  (C9_handleVNCConnect_no_validation ⟨true, none, false⟩
    (VNCConfig.mk "" 0 none 10 10 8) ⟨.ok "sid0", 7, 9, 0⟩ rfl).1 "sid0" rfl

/-! ## Claims about the client session manager -/

/-- C3 (code evaluation): with a reconnect timer pending and a socket
still opening, `disconnect()` does clear the pending timer — but the
closing socket's `onclose` handler, which carries no manual-close check,
then runs against the reset attempt counter, arms a fresh 2000 ms
reconnect timer, and the `connect()` it fires opens a new socket.  This
contradicts the claim (and the handler's own comment) that no reconnect
follows an explicit `disconnect()`. -/
theorem C3_disconnect_reconnect_race_evaluation :
    (useVNCWebSocket.disconnect
        ⟨some .CONNECTING, false, false, none, some 4000, 2, 3⟩).reconnectTimeout
      = none
    ∧ (useVNCWebSocket.onclose (useVNCWebSocket.disconnect
        ⟨some .CONNECTING, false, false, none, some 4000, 2, 3⟩)).2 = some 2000
    ∧ (useVNCWebSocket.connect (useVNCWebSocket.onclose (useVNCWebSocket.disconnect
        ⟨some .CONNECTING, false, false, none, some 4000, 2, 3⟩)).1).openedSockets
      = (useVNCWebSocket.onclose (useVNCWebSocket.disconnect
        ⟨some .CONNECTING, false, false, none, some 4000, 2, 3⟩)).1.openedSockets + 1 := by
  refine ⟨rfl, rfl, ?_⟩
  decide

/-- C4: from a zeroed attempt counter, on each of the first five
consecutive unplanned closures the `onclose` handler increments the
counter and arms a reconnect timer of `2000 ms × attemptNumber` — the
delay sequence is exactly 2 s, 4 s, 6 s, 8 s, 10 s — while the sixth
closure arms no timer and sets the terminal
`connectionError = "Max reconnection attempts reached"`. -/
theorem C4_reconnect_backoff_sequence (s : useVNCWebSocket.HookState)
    (h : s.reconnectAttempts = 0) :
    (useVNCWebSocket.closuresTrace s 6).2
      = [some 2000, some 4000, some 6000, some 8000, some 10000, none]
    ∧ (useVNCWebSocket.closuresTrace s 6).1.connectionError
      = some "Max reconnection attempts reached"
    ∧ (useVNCWebSocket.closuresTrace s 5).1.reconnectAttempts = 5
    ∧ (useVNCWebSocket.closuresTrace s 5).1.connectionError = s.connectionError := by
  obtain ⟨ws, ic, istr, ce, rt, ra, os⟩ := s
  simp only at h
  subst h
  refine ⟨?_, ?_, ?_, ?_⟩ <;>
    simp [useVNCWebSocket.closuresTrace, useVNCWebSocket.onclose,
      useVNCWebSocket.maxReconnectAttempts]

/-- C4 witness: the backoff trace evaluated from a concrete fresh hook
state. -/
theorem C4_reconnect_backoff_sequence_witness :
    (useVNCWebSocket.closuresTrace ⟨some .OPEN, true, true, none, none, 0, 1⟩ 6).2
      = [some 2000, some 4000, some 6000, some 8000, some 10000, none]
    ∧ (useVNCWebSocket.closuresTrace
        ⟨some .OPEN, true, true, none, none, 0, 1⟩ 6).1.connectionError
      = some "Max reconnection attempts reached"
    ∧ (useVNCWebSocket.closuresTrace
        ⟨some .OPEN, true, true, none, none, 0, 1⟩ 5).1.reconnectAttempts = 5
    ∧ (useVNCWebSocket.closuresTrace
        ⟨some .OPEN, true, true, none, none, 0, 1⟩ 5).1.connectionError
      = (⟨some .OPEN, true, true, none, none, 0, 1⟩ :
          useVNCWebSocket.HookState).connectionError :=
  C4_reconnect_backoff_sequence ⟨some .OPEN, true, true, none, none, 0, 1⟩ rfl

/-- C5 counterexample: a hook state that is connected but not yet
streaming (the spec's `Awaiting Session`, not `Streaming`) still sends
both pointer and key events, because the hook's guard tests `isConnected`
rather than `isStreaming`. -/
theorem C5_nonstreaming_send_counterexample :
    useVNCWebSocket.specClientState ⟨some .OPEN, true, false, none, none, 0, 1⟩
      = .AwaitingSession
    ∧ useVNCWebSocket.specClientState ⟨some .OPEN, true, false, none, none, 0, 1⟩
      ≠ .Streaming
    ∧ useVNCWebSocket.sendMouseEvent ⟨some .OPEN, true, false, none, none, 0, 1⟩
        ⟨50, 50, 1, true⟩
      = [.vnc_mouse_event ⟨50, 50, 1, true⟩]
    ∧ useVNCWebSocket.sendKeyboardEvent ⟨some .OPEN, true, false, none, none, 0, 1⟩
        ⟨"a", true⟩
      = [.vnc_keyboard_event ⟨"a", true⟩] := by
  refine ⟨rfl, ?_, rfl, rfl⟩
  decide

/-- C5 (amended): the `VNCClient` class drops pointer/key events — no send,
no state change, no queue — whenever `isStreaming` is false, and sends
exactly one message when streaming with a socket; the `useVNCWebSocket`
hook instead sends whenever its socket is `OPEN` and `isConnected` holds —
including the connected-but-not-yet-streaming phase — and drops (without
state change) otherwise. -/
theorem C5_input_forwarding_guards :
    (∀ (c : VNCClient.Client) (e : VNCMouseEvent) (k : VNCKeyboardEvent),
        c.state.isStreaming = false →
          VNCClient.sendMouseEvent c e = (c, [])
          ∧ VNCClient.sendKeyboardEvent c k = (c, []))
    ∧ (∀ (c : VNCClient.Client) (e : VNCMouseEvent) (k : VNCKeyboardEvent),
        c.state.isStreaming = true → c.socket.isSome = true →
          VNCClient.sendMouseEvent c e = (c, [.mouse_event e])
          ∧ VNCClient.sendKeyboardEvent c k = (c, [.keyboard_event k]))
    ∧ (∀ (s : useVNCWebSocket.HookState) (e : VNCMouseEvent) (k : VNCKeyboardEvent),
        s.ws = some .OPEN → s.isConnected = true →
          useVNCWebSocket.sendMouseEvent s e = [.vnc_mouse_event e]
          ∧ useVNCWebSocket.sendKeyboardEvent s k = [.vnc_keyboard_event k])
    ∧ (∀ (s : useVNCWebSocket.HookState) (e : VNCMouseEvent) (k : VNCKeyboardEvent),
        ¬(s.ws = some .OPEN ∧ s.isConnected = true) →
          useVNCWebSocket.sendMouseEvent s e = []
          ∧ useVNCWebSocket.sendKeyboardEvent s k = []) := by
  refine ⟨?_, ?_, ?_, ?_⟩
  · intro c e k hns
    constructor <;>
      simp [VNCClient.sendMouseEvent, VNCClient.sendKeyboardEvent, hns]
  · intro c e k hs hsock
    constructor <;>
      simp [VNCClient.sendMouseEvent, VNCClient.sendKeyboardEvent, hs, hsock]
  · intro s e k hws hc
    constructor <;>
      simp [useVNCWebSocket.sendMouseEvent, useVNCWebSocket.sendKeyboardEvent, hws, hc]
  · intro s e k hng
    have hg : (decide (s.ws = some useVNCWebSocket.ReadyState.OPEN)
        && s.isConnected) = false := by
      by_cases h0 : s.ws = some useVNCWebSocket.ReadyState.OPEN
      · cases h1 : s.isConnected
        · simp [h0, h1]
        · exact absurd ⟨h0, h1⟩ hng
      · simp [h0]
    constructor <;>
      simp [useVNCWebSocket.sendMouseEvent, useVNCWebSocket.sendKeyboardEvent, hg]

/-- C5 witness: each guard of the amended claim evaluated at a concrete
client or hook state. -/
theorem C5_input_forwarding_guards_witness :
    (VNCClient.sendMouseEvent
        ⟨⟨"h", 1, none, 800, 600, 24⟩, ⟨true, false, false, none⟩, some .OPEN⟩
        ⟨50, 50, 1, true⟩
      = (⟨⟨"h", 1, none, 800, 600, 24⟩, ⟨true, false, false, none⟩, some .OPEN⟩, []))
    ∧ (VNCClient.sendMouseEvent
        ⟨⟨"h", 1, none, 800, 600, 24⟩, ⟨true, true, true, none⟩, some .OPEN⟩
        ⟨50, 50, 1, true⟩
      = (⟨⟨"h", 1, none, 800, 600, 24⟩, ⟨true, true, true, none⟩, some .OPEN⟩,
          [.mouse_event ⟨50, 50, 1, true⟩]))
    ∧ (useVNCWebSocket.sendMouseEvent ⟨some .OPEN, true, false, none, none, 0, 1⟩
        ⟨50, 50, 1, true⟩ = [.vnc_mouse_event ⟨50, 50, 1, true⟩])
    ∧ (useVNCWebSocket.sendMouseEvent ⟨none, false, false, none, none, 0, 0⟩
        ⟨50, 50, 1, true⟩ = []) :=
  ⟨(C5_input_forwarding_guards.1
      ⟨⟨"h", 1, none, 800, 600, 24⟩, ⟨true, false, false, none⟩, some .OPEN⟩
      ⟨50, 50, 1, true⟩ ⟨"a", true⟩ rfl).1,
    (C5_input_forwarding_guards.2.1
      ⟨⟨"h", 1, none, 800, 600, 24⟩, ⟨true, true, true, none⟩, some .OPEN⟩
      ⟨50, 50, 1, true⟩ ⟨"a", true⟩ rfl rfl).1,
    (C5_input_forwarding_guards.2.2.1 ⟨some .OPEN, true, false, none, none, 0, 1⟩
      ⟨50, 50, 1, true⟩ ⟨"a", true⟩ rfl rfl).1,
    (C5_input_forwarding_guards.2.2.2 ⟨none, false, false, none, none, 0, 0⟩
      ⟨50, 50, 1, true⟩ ⟨"a", true⟩ (by decide)).1⟩

/-- C8 counterexample: with the socket in readyState `CONNECTING` (the
spec's `Connecting` state), `connect()` is not a no-op — it constructs a
new `WebSocket`, because the guard only returns early on `OPEN`. -/
theorem C8_connect_while_connecting_counterexample :
    useVNCWebSocket.specClientState ⟨some .CONNECTING, false, false, none, none, 0, 1⟩
      = .Connecting
    ∧ useVNCWebSocket.connect ⟨some .CONNECTING, false, false, none, none, 0, 1⟩
      ≠ ⟨some .CONNECTING, false, false, none, none, 0, 1⟩
    ∧ (useVNCWebSocket.connect
        ⟨some .CONNECTING, false, false, none, none, 0, 1⟩).openedSockets
      = 1 + 1 := by
  refine ⟨rfl, ?_, rfl⟩
  decide

/-- C8 (amended): `connect()` is a no-op (and hence idempotent) exactly
when the socket's readyState is already `OPEN` — i.e. once connected or
streaming; in every other situation, including readyState `CONNECTING`, it
opens a new socket. -/
theorem C8_connect_noop_only_when_open (s : useVNCWebSocket.HookState) :
    (s.ws = some .OPEN →
      useVNCWebSocket.connect s = s
      ∧ useVNCWebSocket.connect (useVNCWebSocket.connect s) = useVNCWebSocket.connect s)
    ∧ (s.ws ≠ some .OPEN →
      (useVNCWebSocket.connect s).ws = some .CONNECTING
      ∧ (useVNCWebSocket.connect s).openedSockets = s.openedSockets + 1) := by
  constructor
  · intro hopen
    have h1 : useVNCWebSocket.connect s = s := by
      simp [useVNCWebSocket.connect, hopen]
    exact ⟨h1, by rw [h1]; exact h1⟩
  · intro hnot
    constructor <;> simp [useVNCWebSocket.connect, hnot]

/-- C8 witness: both branches of the amended claim at concrete states. -/
theorem C8_connect_noop_only_when_open_witness :
    (useVNCWebSocket.connect ⟨some .OPEN, true, true, none, none, 0, 1⟩
      = ⟨some .OPEN, true, true, none, none, 0, 1⟩)
    ∧ ((useVNCWebSocket.connect
          ⟨some .CONNECTING, false, false, none, none, 0, 1⟩).ws = some .CONNECTING
        ∧ (useVNCWebSocket.connect
            ⟨some .CONNECTING, false, false, none, none, 0, 1⟩).openedSockets
          = (⟨some .CONNECTING, false, false, none, none, 0, 1⟩ :
              useVNCWebSocket.HookState).openedSockets + 1) :=
  ⟨((C8_connect_noop_only_when_open ⟨some .OPEN, true, true, none, none, 0, 1⟩).1
      rfl).1,
    (C8_connect_noop_only_when_open
        ⟨some .CONNECTING, false, false, none, none, 0, 1⟩).2 (by decide)⟩

/-! ## Claim about the VNCClient event system -/

/-- Looking up an event after `on` yields the previous handler array with
the new handler pushed at the end. -/
theorem getHandlers_onEvent_self {α ε β : Type} (m : VNCClient.EventMap α ε β)
    (event : String) (h : VNCClient.Handler α ε β) :
    VNCClient.getHandlers (VNCClient.onEvent m event h) event
      = some ((VNCClient.getHandlers m event).getD [] ++ [h]) := by
  induction m with
  | nil => simp [VNCClient.onEvent, VNCClient.getHandlers]
  | cons hd tl ih =>
    obtain ⟨e, hs⟩ := hd
    by_cases he : e = event
    · subst he
      simp [VNCClient.onEvent, VNCClient.getHandlers]
    · simp [VNCClient.onEvent, VNCClient.getHandlers, he, ih]

/-- The guarded `forEach` distributes over list append. -/
theorem emitList_append {α ε β : Type} (hs1 hs2 : List (VNCClient.Handler α ε β))
    (data : α) :
    VNCClient.emitList (hs1 ++ hs2) data
      = VNCClient.emitList hs1 data ++ VNCClient.emitList hs2 data := by
  induction hs1 with
  | nil => simp [VNCClient.emitList]
  | cons h t ih => simp [VNCClient.emitList, ih]

/-- The guarded `forEach` produces one result per handler. -/
theorem emitList_length {α ε β : Type} (hs : List (VNCClient.Handler α ε β))
    (data : α) :
    (VNCClient.emitList hs data).length = hs.length := by
  induction hs with
  | nil => rfl
  | cons h t ih => simp [VNCClient.emitList, ih]

/-- Emitting after registering one more handler runs all previous handlers
first, in order, then the new one. -/
theorem emit_onEvent {α ε β : Type} (m : VNCClient.EventMap α ε β)
    (event : String) (h : VNCClient.Handler α ε β) (data : α) :
    VNCClient.emit (VNCClient.onEvent m event h) event data
      = VNCClient.emit m event data ++ [VNCClient.tryCall h data] := by
  unfold VNCClient.emit
  rw [getHandlers_onEvent_self]
  cases hg : VNCClient.getHandlers m event with
  | none => simp [hg, VNCClient.emitList, VNCClient.emitList]
  | some hs => simp [hg, emitList_append, VNCClient.emitList]

/-- C10: `emit` invokes every registered handler for the event in
registration order; each handler runs in its own `try`/`catch`, so a
handler that throws (here `h1`) is recorded and does not prevent the next
registered handler (`h2`) from running, and `emit` — a total function —
propagates no exception.  Also, with `hs` registered, `emit` yields
exactly one result per registered handler. -/
theorem C10_emit_runs_every_handler {α ε β : Type}
    (m : VNCClient.EventMap α ε β) (event : String)
    (h1 h2 : VNCClient.Handler α ε β) (data : α) (e : ε)
    (hthrow : h1 data = .error e) :
    VNCClient.emit (VNCClient.onEvent (VNCClient.onEvent m event h1) event h2)
        event data
      = VNCClient.emit m event data ++ [some e, VNCClient.tryCall h2 data]
    ∧ ∀ hs, VNCClient.getHandlers m event = some hs →
        (VNCClient.emit m event data).length = hs.length := by
  constructor
  · rw [emit_onEvent, emit_onEvent]
    have hcall : VNCClient.tryCall h1 data = some e := by
      simp [VNCClient.tryCall, hthrow]
    rw [hcall, List.append_assoc]
    rfl
  · intro hs hg
    simp [VNCClient.emit, hg, emitList_length]

/-- C10 witness: an empty map, a throwing first handler and a succeeding
second handler — both run, in order, and `emit` returns their two caught
results. -/
theorem C10_emit_runs_every_handler_witness :
    VNCClient.emit
        (VNCClient.onEvent
          (VNCClient.onEvent ([] : VNCClient.EventMap Nat String Nat)
            "error" (fun _ => .error "boom"))
          "error" (fun n => .ok n)) "error" 0
      = [some "boom", none] := by
  have h := (C10_emit_runs_every_handler
    ([] : VNCClient.EventMap Nat String Nat) "error"
    (fun _ => .error "boom") (fun n => .ok n) 0 "boom" rfl).1
  simpa [VNCClient.emit, VNCClient.getHandlers, VNCClient.tryCall] using h
